import Mathlib

/-!
# Life in Weeks — verification of the week model and grid layout

Shallow embedding of `src/script.js`: the week-model calculation
(`calculateWeeks`), the grid layout loop (`renderWeeksGrid`, modelled as the
pure `layout`), the summary computation (`updateSummary`) and the form-submit
controller (`handleSubmit`).  Dates are millisecond timestamps (`ℤ`, the value
of `Date.getTime()`); the ambient `new Date()` read inside `calculateWeeks` is
passed as the explicit `now` argument.  `yearsLived` is modelled as an exact
rational (365.25 days per year is exactly 31557600000 ms).
-/

namespace LifeInWeeks

/-- `const AVERAGE_LIFESPAN_YEARS = 90` (script.js:19). -/
def AVERAGE_LIFESPAN_YEARS : ℕ := 90

/-- `const WEEKS_PER_YEAR = 52` (script.js:20). -/
def WEEKS_PER_YEAR : ℕ := 52

/-- `const MAX_REASONABLE_AGE_YEARS = 110` (script.js:21), compared against
the fractional `yearsLived`. -/
def MAX_REASONABLE_AGE_YEARS : ℚ := 110

/-- `1000 * 60 * 60 * 24 * 7` milliseconds per week (script.js:37). -/
def msPerWeek : ℤ := 1000 * 60 * 60 * 24 * 7

/-- `1000 * 60 * 60 * 24 * 365.25` milliseconds per year (script.js:38);
`365.25 = 1461/4` exactly. -/
def msPerYear : ℚ := 1000 * 60 * 60 * 24 * (1461 / 4)

/-- The record returned by `calculateWeeks` (script.js:40-44). -/
structure WeekModelResult where
  totalWeeks : ℤ
  weeksLived : ℤ
  yearsLived : ℚ
deriving DecidableEq, Repr

/-- `calculateWeeks` (script.js:27-45).  The source reads `new Date()` for
`now`; here `now` is the explicit second argument.  `dob > now` throws;
otherwise `weeksLived = Math.floor(msDiff / msPerWeek)` (floor division,
`Int.fdiv`) and `yearsLived = msDiff / msPerYear` (fractional). -/
def calculateWeeks (dob now : ℤ) : Except String WeekModelResult :=
  if now < dob then
    Except.error "Date of birth cannot be in the future."
  else
    Except.ok
      { totalWeeks := (AVERAGE_LIFESPAN_YEARS : ℤ) * (WEEKS_PER_YEAR : ℤ)
      , weeksLived := Int.fdiv (now - dob) msPerWeek
      , yearsLived := ((now - dob : ℤ) : ℚ) / msPerYear }

/-- A week cell carries the class `week-cell--past` or `week-cell--future`
(script.js:78-82). -/
inductive Cell
  | past
  | future
deriving DecidableEq, Repr

/-- A year row: the `year-row--decade` class flag (script.js:68-70) and its
week cells in order. -/
structure Row where
  decade : Bool
  cells : List Cell
deriving DecidableEq, Repr, Inhabited

/-- The cell created for global index `g`: past iff `g < safeLived`
(script.js:78-82). -/
def tagCell (safeLived g : ℕ) : Cell :=
  if g < safeLived then Cell.past else Cell.future

/-- `n` consecutive cells starting at global index `g`, each tagged by
`tagCell`.  Reference list used to state what the loops emit. -/
def tagRun (safeLived : ℕ) : ℕ → ℕ → List Cell
  | _, 0 => []
  | g, n + 1 => tagCell safeLived g :: tagRun safeLived (g + 1) n

/-- Inner loop of `renderWeeksGrid` (script.js:72-86): starting at global
index `g` with `w` week slots left in the row, emit a cell per slot but stop
as soon as `globalIndex >= safeTotal`. -/
def rowCells (safeTotal safeLived : ℕ) : ℕ → ℕ → List Cell
  | _, 0 => []
  | g, w + 1 =>
    if safeTotal ≤ g then []
    else tagCell safeLived g :: rowCells safeTotal safeLived (g + 1) w

/-- Outer loop of `renderWeeksGrid` (script.js:64-93): `fuel` iterations of
`year` remain (`fuel + year = AVERAGE_LIFESPAN_YEARS` at every call), each
iteration appends one row (decade-flagged when `year > 0 && year % 10 === 0`)
and then breaks when `globalIndex >= safeTotal`. -/
def buildRows (safeTotal safeLived : ℕ) : ℕ → ℕ → ℕ → List Row
  | 0, _, _ => []
  | fuel + 1, year, g =>
    Row.mk (decide (0 < year ∧ year % 10 = 0)) (rowCells safeTotal safeLived g WEEKS_PER_YEAR) ::
      (if safeTotal ≤ g + (rowCells safeTotal safeLived g WEEKS_PER_YEAR).length then []
       else buildRows safeTotal safeLived fuel (year + 1)
         (g + (rowCells safeTotal safeLived g WEEKS_PER_YEAR).length))

/-- `const safeTotal = Math.max(0, totalWeeks)` (script.js:53), as a natural
number (it is non-negative). -/
def safeTotalN (totalWeeks : ℤ) : ℕ := (max 0 totalWeeks).toNat

/-- `const safeLived = Math.min(Math.max(0, weeksLived), safeTotal)`
(script.js:54). -/
def safeLivedN (totalWeeks weeksLived : ℤ) : ℕ :=
  min (max 0 weeksLived).toNat (safeTotalN totalWeeks)

/-- `renderWeeksGrid` (script.js:51-94) as a pure function from its two
arguments to the emitted grid structure. -/
def layout (totalWeeks weeksLived : ℤ) : List Row :=
  buildRows (safeTotalN totalWeeks) (safeLivedN totalWeeks weeksLived)
    AVERAGE_LIFESPAN_YEARS 0 0

/-- All cells of a grid in row-major order (the order they are created). -/
def cellsOf : List Row → List Cell
  | [] => []
  | r :: rest => r.cells ++ cellsOf rest

/-- Total number of cells across all rows of a grid. -/
def numCells (g : List Row) : ℕ := (cellsOf g).length

/-- The three summary fields set by `updateSummary` (script.js:99-112),
kept as numbers (locale string formatting is presentation). -/
structure Summary where
  ageText : ℚ
  livedText : ℤ
  remainingText : ℤ
deriving DecidableEq, Repr

/-- `updateSummary` (script.js:99-112): age, lived count, and
`remaining = Math.max(0, totalWeeks - weeksLived)` with the raw
(unclamped) `weeksLived`. -/
def updateSummary (r : WeekModelResult) : Summary :=
  { ageText := r.yearsLived
  , livedText := r.weeksLived
  , remainingText := max 0 (r.totalWeeks - r.weeksLived) }

/-- The distinct feedback messages shown via `showError`
(script.js:168,175,183,185,188). -/
inductive Message
  | emptyInput
  | invalidDate
  | newborn
  | implausibleAge
  | exceededLifespan
deriving DecidableEq, Repr

/-- The date input as seen by the submit handler after the two early checks:
empty string, unparseable string, or a parsed timestamp. -/
inductive FormValue
  | empty
  | invalid
  | valid (dob : ℤ)
deriving DecidableEq

/-- The UI state touched by the handler: rendered grid, summary card values,
and the feedback message (`none` = cleared). -/
structure UIState where
  grid : List Row
  summary : Option Summary
  message : Option Message
deriving DecidableEq

/-- `renderWeeksGrid` + `updateSummary` on the success path
(script.js:199-200). -/
def renderAll (st : UIState) (r : WeekModelResult) : UIState :=
  { st with
      grid := layout r.totalWeeks r.weeksLived
      summary := some (updateSummary r) }

/-- The form submit handler (script.js:162-205) as a transition on the UI
state.  A thrown `calculateWeeks` error is caught and only logged
(script.js:202-204), leaving the prior state untouched. -/
def handleSubmit (prior : UIState) (input : FormValue) (now : ℤ) : UIState :=
  match input with
  | FormValue.empty => { prior with message := some Message.emptyInput }
  | FormValue.invalid => { prior with message := some Message.invalidDate }
  | FormValue.valid dob =>
    match calculateWeeks dob now with
    | Except.error _ => prior
    | Except.ok r =>
      if r.yearsLived < 1 / 10 then
        renderAll { prior with message := some Message.newborn } r
      else if MAX_REASONABLE_AGE_YEARS < r.yearsLived then
        { prior with message := some Message.implausibleAge }
      else if (AVERAGE_LIFESPAN_YEARS : ℚ) < r.yearsLived then
        renderAll { prior with message := some Message.exceededLifespan } r
      else
        renderAll { prior with message := none } r

/-! ## Lemmas about the grid loops -/

lemma tagRun_length (sl : ℕ) : ∀ (n g : ℕ), (tagRun sl g n).length = n := by
  intro n
  induction n with
  | zero => intro g; rfl
  | succ n ih => intro g; simp [tagRun, ih]

lemma tagRun_append (sl : ℕ) : ∀ (m g n : ℕ),
    tagRun sl g (m + n) = tagRun sl g m ++ tagRun sl (g + m) n := by
  intro m
  induction m with
  | zero => intro g n; simp [tagRun]
  | succ m ih =>
    intro g n
    have h1 : m + 1 + n = (m + n) + 1 := by omega
    have h2 : g + (m + 1) = (g + 1) + m := by omega
    rw [h1, h2]
    simp only [tagRun, ih (g + 1) n, List.cons_append]

lemma tagRun_get (sl : ℕ) : ∀ (n g i : ℕ) (h : i < (tagRun sl g n).length),
    (tagRun sl g n).get ⟨i, h⟩ = tagCell sl (g + i) := by
  intro n
  induction n with
  | zero => intro g i h; simp [tagRun] at h
  | succ n ih =>
    intro g i h
    cases i with
    | zero => simp [tagRun]
    | succ i =>
      have hlen : i < (tagRun sl (g + 1) n).length := by
        rw [tagRun_length] at h ⊢
        omega
      have hstep : (tagRun sl g (n + 1)).get ⟨i + 1, h⟩
          = (tagRun sl (g + 1) n).get ⟨i, hlen⟩ := rfl
      rw [hstep, ih (g + 1) i hlen]
      congr 1
      omega

lemma rowCells_eq_tagRun (st sl : ℕ) : ∀ (w g : ℕ),
    rowCells st sl g w = tagRun sl g (min w (st - g)) := by
  intro w
  induction w with
  | zero => intro g; simp [rowCells, tagRun]
  | succ w ih =>
    intro g
    by_cases hg : st ≤ g
    · have hz : min (w + 1) (st - g) = 0 := by omega
      simp [rowCells, hg, hz, tagRun]
    · have hmin : min (w + 1) (st - g) = min w (st - (g + 1)) + 1 := by omega
      simp only [rowCells, if_neg hg, hmin, tagRun, ih (g + 1)]

lemma rowCells_length (st sl g w : ℕ) :
    (rowCells st sl g w).length = min w (st - g) := by
  rw [rowCells_eq_tagRun, tagRun_length]

lemma cellsOf_cons (r : Row) (rest : List Row) :
    cellsOf (r :: rest) = r.cells ++ cellsOf rest := rfl

lemma cells_buildRows (st sl : ℕ) : ∀ (fuel year g : ℕ),
    cellsOf (buildRows st sl fuel year g)
      = tagRun sl g (min (fuel * WEEKS_PER_YEAR) (st - g)) := by
  have h52 : WEEKS_PER_YEAR = 52 := rfl
  intro fuel
  induction fuel with
  | zero => intro year g; simp [buildRows, cellsOf, tagRun]
  | succ fuel ih =>
    intro year g
    simp only [buildRows, cellsOf_cons]
    rw [rowCells_eq_tagRun, tagRun_length]
    by_cases hstop : st ≤ g + min WEEKS_PER_YEAR (st - g)
    · rw [if_pos hstop]
      have hmin : min WEEKS_PER_YEAR (st - g)
          = min ((fuel + 1) * WEEKS_PER_YEAR) (st - g) := by
        rw [h52] at hstop ⊢
        omega
      simp [cellsOf, hmin]
    · rw [if_neg hstop]
      rw [ih (year + 1) (g + min WEEKS_PER_YEAR (st - g))]
      rw [← tagRun_append]
      have hcount : min WEEKS_PER_YEAR (st - g)
            + min (fuel * WEEKS_PER_YEAR) (st - (g + min WEEKS_PER_YEAR (st - g)))
          = min ((fuel + 1) * WEEKS_PER_YEAR) (st - g) := by
        rw [h52] at hstop ⊢
        omega
      simp [hcount]

lemma cells_layout (tW wL : ℤ) :
    cellsOf (layout tW wL)
      = tagRun (safeLivedN tW wL) 0 (min 4680 (safeTotalN tW)) := by
  simp only [layout]
  rw [cells_buildRows]
  congr 1

lemma numCells_layout (tW wL : ℤ) :
    numCells (layout tW wL) = min 4680 (safeTotalN tW) := by
  rw [numCells, cells_layout, tagRun_length]

lemma buildRows_length_le (st sl : ℕ) : ∀ (fuel year g : ℕ),
    (buildRows st sl fuel year g).length ≤ fuel := by
  intro fuel
  induction fuel with
  | zero => intro year g; simp [buildRows]
  | succ fuel ih =>
    intro year g
    simp only [buildRows, List.length_cons]
    by_cases hstop : st ≤ g + (rowCells st sl g WEEKS_PER_YEAR).length
    · rw [if_pos hstop]; simp
    · rw [if_neg hstop]
      have := ih (year + 1) (g + (rowCells st sl g WEEKS_PER_YEAR).length)
      omega

lemma buildRows_cells_le (st sl : ℕ) : ∀ (fuel year g : ℕ) (r : Row),
    r ∈ buildRows st sl fuel year g → r.cells.length ≤ WEEKS_PER_YEAR := by
  intro fuel
  induction fuel with
  | zero => intro year g r hr; simp [buildRows] at hr
  | succ fuel ih =>
    intro year g r hr
    simp only [buildRows] at hr
    rcases List.mem_cons.mp hr with h | h
    · subst h
      simp only [rowCells_length]
      omega
    · by_cases hstop : st ≤ g + (rowCells st sl g WEEKS_PER_YEAR).length
      · rw [if_pos hstop] at h
        simp at h
      · rw [if_neg hstop] at h
        exact ih _ _ r h

lemma buildRows_dropLast_cells (st sl : ℕ) : ∀ (fuel year g : ℕ) (r : Row),
    r ∈ (buildRows st sl fuel year g).dropLast → r.cells.length = WEEKS_PER_YEAR := by
  have h52 : WEEKS_PER_YEAR = 52 := rfl
  intro fuel
  induction fuel with
  | zero => intro year g r hr; simp [buildRows] at hr
  | succ fuel ih =>
    intro year g r hr
    simp only [buildRows] at hr
    by_cases hstop : st ≤ g + (rowCells st sl g WEEKS_PER_YEAR).length
    · rw [if_pos hstop] at hr
      simp at hr
    · rw [if_neg hstop] at hr
      cases hrec : buildRows st sl fuel (year + 1)
          (g + (rowCells st sl g WEEKS_PER_YEAR).length) with
      | nil =>
        rw [hrec] at hr
        simp at hr
      | cons b bs =>
        rw [hrec, List.dropLast_cons₂] at hr
        rcases List.mem_cons.mp hr with h | h
        · subst h
          simp only [rowCells_length] at hstop ⊢
          rw [h52] at hstop ⊢
          omega
        · rw [← hrec] at h
          exact ih _ _ r h

lemma get_congr_list {α : Type} {l l' : List α} (h : l = l') (i : ℕ)
    (hi : i < l.length) (hi' : i < l'.length) :
    l.get ⟨i, hi⟩ = l'.get ⟨i, hi'⟩ := by
  subst h
  rfl

/-! ## Claims -/

/-- C1: for every pair of dates with `dob ≤ now`, `calculateWeeks dob now`
succeeds and its `weeksLived` is the exact non-negative integer floor
division of the elapsed milliseconds by `7 * 24 * 60 * 60 * 1000`; and
`weeksLived` may exceed `totalWeeks` (witnessed by a 4681-week lifetime). -/
theorem C1_weeksLived_floor_division :
    (∀ dob now : ℤ, dob ≤ now →
      ∃ r, calculateWeeks dob now = Except.ok r ∧
        r.weeksLived = Int.fdiv (now - dob) (7 * 24 * 60 * 60 * 1000) ∧
        0 ≤ r.weeksLived) ∧
    (∃ dob now : ℤ, ∃ r, dob ≤ now ∧ calculateWeeks dob now = Except.ok r ∧
      r.totalWeeks < r.weeksLived) := by
  constructor
  · intro dob now h
    have hok : calculateWeeks dob now
        = Except.ok
            { totalWeeks := (AVERAGE_LIFESPAN_YEARS : ℤ) * (WEEKS_PER_YEAR : ℤ)
            , weeksLived := Int.fdiv (now - dob) msPerWeek
            , yearsLived := ((now - dob : ℤ) : ℚ) / msPerYear } := by
      rw [calculateWeeks, if_neg (by omega)]
    refine ⟨_, hok, ?_, ?_⟩
    · show Int.fdiv (now - dob) msPerWeek = _
      norm_num [msPerWeek]
    · show (0 : ℤ) ≤ Int.fdiv (now - dob) msPerWeek
      exact Int.fdiv_nonneg (by omega) (by norm_num [msPerWeek])
  · have hok : calculateWeeks 0 2831068800000
        = Except.ok
            { totalWeeks := (AVERAGE_LIFESPAN_YEARS : ℤ) * (WEEKS_PER_YEAR : ℤ)
            , weeksLived := Int.fdiv ((2831068800000 : ℤ) - 0) msPerWeek
            , yearsLived := (((2831068800000 : ℤ) - 0 : ℤ) : ℚ) / msPerYear } := by
      rw [calculateWeeks, if_neg (by norm_num)]
    refine ⟨0, 2831068800000, _, by norm_num, hok, ?_⟩
    show (AVERAGE_LIFESPAN_YEARS : ℤ) * (WEEKS_PER_YEAR : ℤ)
        < Int.fdiv ((2831068800000 : ℤ) - 0) msPerWeek
    decide

/-- C1 witness: at `dob = 0`, `now = 604800000` (one week) the hypothesis
`dob ≤ now` holds and the theorem applies. -/
theorem C1_witness :
    ∃ r, calculateWeeks 0 604800000 = Except.ok r ∧
      r.weeksLived = Int.fdiv (604800000 - 0) (7 * 24 * 60 * 60 * 1000) ∧
      0 ≤ r.weeksLived :=
  C1_weeksLived_floor_division.1 0 604800000 (by norm_num)

/-- C2: for all integer inputs, the cell at global row-major index `i` of
`layout totalWeeks weeksLived` is tagged past if and only if
`i < clamp(weeksLived, 0, max 0 totalWeeks)`. -/
theorem C2_cell_past_iff_clamp (tW wL : ℤ) (i : ℕ)
    (h : i < (cellsOf (layout tW wL)).length) :
    (cellsOf (layout tW wL)).get ⟨i, h⟩ = Cell.past
      ↔ (i : ℤ) < min (max 0 wL) (max 0 tW) := by
  have hc := cells_layout tW wL
  have h' : i < (tagRun (safeLivedN tW wL) 0 (min 4680 (safeTotalN tW))).length := by
    rw [← hc]
    exact h
  rw [get_congr_list hc i h h', tagRun_get, Nat.zero_add, tagCell]
  by_cases hp : i < safeLivedN tW wL
  · rw [if_pos hp]
    simp only [safeLivedN, safeTotalN] at hp
    constructor
    · intro _
      omega
    · intro _
      rfl
  · rw [if_neg hp]
    constructor
    · intro hcontra
      exact Cell.noConfusion hcontra
    · intro hlt
      exfalso
      apply hp
      simp only [safeLivedN, safeTotalN]
      omega

/-- C2 witness: in `layout 3 2` the cell at global index 1 is past and
`1 < clamp(2, 0, max 0 3)`. -/
theorem C2_witness :
    ((cellsOf (layout 3 2)).get ⟨1, by decide⟩ = Cell.past)
      ∧ ((1 : ℤ) < min (max 0 (2 : ℤ)) (max 0 (3 : ℤ))) :=
  ⟨(C2_cell_past_iff_clamp 3 2 1 (by decide)).mpr (by decide), by decide⟩

/-- C3 counterexample: at `totalWeeks = 4681` the grid holds 4680 cells, not
`safeTotal = max 0 totalWeeks = 4681`, because the outer loop runs at most 90
rows.  This refutes the claim that the cell count equals `safeTotal` for
arbitrary `totalWeeks`. -/
theorem C3_counterexample :
    ¬ (numCells (layout 4681 0) = (max 0 (4681 : ℤ)).toNat) := by
  rw [numCells_layout]
  decide

/-- C3 amended: the total number of cells of `layout totalWeeks weeksLived`
is `min (max 0 totalWeeks) 4680` (so it equals `safeTotal` exactly when
`safeTotal ≤ 4680`, in particular for the constant 4680); rows hold exactly
52 cells each except a possible shorter final row, and emission stops once
the global index reaches `safeTotal` or 90 rows have been produced. -/
theorem C3_amended_cell_count (tW wL : ℤ) :
    numCells (layout tW wL) = min (safeTotalN tW) 4680 ∧
    (∀ r ∈ (layout tW wL).dropLast, r.cells.length = 52) ∧
    (∀ r ∈ layout tW wL, r.cells.length ≤ 52) ∧
    (safeTotalN tW ≤ 4680 → numCells (layout tW wL) = safeTotalN tW) := by
  refine ⟨?_, ?_, ?_, ?_⟩
  · rw [numCells_layout, Nat.min_comm]
  · intro r hr
    exact buildRows_dropLast_cells _ _ _ _ _ r hr
  · intro r hr
    exact buildRows_cells_le _ _ _ _ _ r hr
  · intro hle
    rw [numCells_layout]
    omega

/-- C3 amended witness: at `totalWeeks = 53` the grid holds 53 cells
(= `safeTotal`), the single non-final row holds exactly 52 cells, and the
final row is shorter. -/
theorem C3_amended_witness :
    numCells (layout 53 0) = min (safeTotalN 53) 4680 ∧
    (layout 53 0).headI.cells.length = 52 ∧
    (safeTotalN 53 ≤ 4680 ∧ numCells (layout 53 0) = safeTotalN 53) := by
  have h := C3_amended_cell_count 53 0
  refine ⟨h.1, ?_, by decide, h.2.2.2 (by decide)⟩
  have hm : (layout 53 0).headI ∈ (layout 53 0).dropLast := by decide
  exact h.2.1 _ hm

/-- C4: whenever `calculateWeeks` succeeds its `totalWeeks` is the constant
4680, and it succeeds for every `dob ≤ now`; so the constant is independent
of both inputs. -/
theorem C4_totalWeeks_constant (dob now : ℤ) :
    (∀ r, calculateWeeks dob now = Except.ok r → r.totalWeeks = 4680) ∧
    (dob ≤ now → ∃ r, calculateWeeks dob now = Except.ok r) := by
  constructor
  · intro r hr
    rw [calculateWeeks] at hr
    by_cases h : now < dob
    · rw [if_pos h] at hr
      simp at hr
    · rw [if_neg h] at hr
      cases hr
      show (AVERAGE_LIFESPAN_YEARS : ℤ) * (WEEKS_PER_YEAR : ℤ) = 4680
      decide
  · intro h
    exact ⟨_, by rw [calculateWeeks, if_neg (by omega)]⟩

/-- C4 witness: at `dob = 0`, `now = 604800000` the computation succeeds and
returns `totalWeeks = 4680`. -/
theorem C4_witness :
    ∃ r, calculateWeeks 0 604800000 = Except.ok r ∧ r.totalWeeks = 4680 := by
  obtain ⟨r, hr⟩ := (C4_totalWeeks_constant 0 604800000).2 (by norm_num)
  exact ⟨r, hr, (C4_totalWeeks_constant 0 604800000).1 r hr⟩

/-- C5: `calculateWeeks dob now` fails (with the future-date-of-birth error)
if and only if `dob > now`; and on failure the submit handler catches the
error and leaves the whole prior UI state (grid, summary, message)
unchanged. -/
theorem C5_future_dob_error_and_abort (dob now : ℤ) :
    ((∃ e, calculateWeeks dob now = Except.error e) ↔ now < dob) ∧
    (∀ prior : UIState, (∃ e, calculateWeeks dob now = Except.error e) →
      handleSubmit prior (FormValue.valid dob) now = prior) := by
  constructor
  · constructor
    · rintro ⟨e, he⟩
      by_contra h
      rw [calculateWeeks, if_neg h] at he
      simp at he
    · intro h
      exact ⟨_, by rw [calculateWeeks, if_pos h]⟩
  · rintro prior ⟨e, he⟩
    simp [handleSubmit, he]

/-- C5 witness: with `dob = 1 > now = 0` the computation fails and the
handler returns the prior state unchanged. -/
theorem C5_witness :
    ((∃ e, calculateWeeks 1 0 = Except.error e) ↔ (0 : ℤ) < 1) ∧
    handleSubmit (UIState.mk [] none none) (FormValue.valid 1) 0
      = UIState.mk [] none none := by
  have h := C5_future_dob_error_and_abort 1 0
  exact ⟨h.1, h.2 _ (h.1.mpr (by norm_num))⟩

/-- C6: in the submit handler, when the computed `yearsLived` exceeds 110 the
submission aborts before rendering (grid and summary keep their prior
values, only the message changes), while when `yearsLived < 0.1` the newborn
message is shown and the grid and summary are still rendered. -/
theorem C6_newborn_renders_implausible_does_not
    (prior : UIState) (dob now : ℤ) (r : WeekModelResult)
    (hok : calculateWeeks dob now = Except.ok r) :
    (MAX_REASONABLE_AGE_YEARS < r.yearsLived →
      (handleSubmit prior (FormValue.valid dob) now).grid = prior.grid ∧
      (handleSubmit prior (FormValue.valid dob) now).summary = prior.summary) ∧
    (r.yearsLived < 1 / 10 →
      (handleSubmit prior (FormValue.valid dob) now).grid
          = layout r.totalWeeks r.weeksLived ∧
      (handleSubmit prior (FormValue.valid dob) now).summary
          = some (updateSummary r) ∧
      (handleSubmit prior (FormValue.valid dob) now).message
          = some Message.newborn) := by
  constructor
  · intro hage
    have hnotnb : ¬ (r.yearsLived < 1 / 10) := by
      rw [MAX_REASONABLE_AGE_YEARS] at hage
      intro hc
      linarith
    simp only [handleSubmit, hok]
    rw [if_neg hnotnb, if_pos hage]
    exact ⟨rfl, rfl⟩
  · intro hnb
    simp only [handleSubmit, hok]
    rw [if_pos hnb]
    exact ⟨rfl, rfl, rfl⟩

/-- C6 witness: at `dob = 0`, `now` 111 years later (`yearsLived = 111 >
110`) the grid and summary stay at their prior values; at `dob = now = 0`
(`yearsLived = 0 < 0.1`) the newborn message is shown and the grid and
summary are rendered. -/
theorem C6_witness :
    ((handleSubmit (UIState.mk [] none none) (FormValue.valid 0) 3502893600000).grid
        = [] ∧
     (handleSubmit (UIState.mk [] none none) (FormValue.valid 0) 3502893600000).summary
        = none) ∧
    ((handleSubmit (UIState.mk [] none none) (FormValue.valid 0) 0).grid
        = layout 4680 0 ∧
     (handleSubmit (UIState.mk [] none none) (FormValue.valid 0) 0).summary
        = some (updateSummary ⟨4680, 0, 0⟩) ∧
     (handleSubmit (UIState.mk [] none none) (FormValue.valid 0) 0).message
        = some Message.newborn) := by
  constructor
  · have hok : calculateWeeks 0 3502893600000
        = Except.ok ⟨4680, Int.fdiv 3502893600000 msPerWeek,
            (3502893600000 : ℚ) / msPerYear⟩ := by
      rw [calculateWeeks, if_neg (by norm_num)]
      norm_num [AVERAGE_LIFESPAN_YEARS, WEEKS_PER_YEAR]
    have h := C6_newborn_renders_implausible_does_not
      (UIState.mk [] none none) 0 3502893600000 _ hok
    exact h.1 (by norm_num [MAX_REASONABLE_AGE_YEARS, msPerYear])
  · have hok : calculateWeeks 0 0 = Except.ok ⟨4680, 0, 0⟩ := by
      rw [calculateWeeks, if_neg (by norm_num)]
      norm_num [AVERAGE_LIFESPAN_YEARS, WEEKS_PER_YEAR, Int.zero_fdiv]
    have h := C6_newborn_renders_implausible_does_not
      (UIState.mk [] none none) 0 0 _ hok
    exact h.2 (by norm_num)

/-- C7: the remaining count of the summary is `max 0 (totalWeeks -
weeksLived)` computed from the raw, unclamped `weeksLived`: it is exactly 0
when `weeksLived ≥ totalWeeks` and `totalWeeks - weeksLived` otherwise. -/
theorem C7_remaining_clamped_at_zero (r : WeekModelResult) :
    (updateSummary r).remainingText = max 0 (r.totalWeeks - r.weeksLived) ∧
    (r.totalWeeks ≤ r.weeksLived → (updateSummary r).remainingText = 0) ∧
    (r.weeksLived ≤ r.totalWeeks →
      (updateSummary r).remainingText = r.totalWeeks - r.weeksLived) := by
  refine ⟨rfl, ?_, ?_⟩ <;> intro h <;> simp [updateSummary] <;> omega

/-- C7 witness: a subject 5000 weeks into a 4680-week model has 0 weeks
remaining; one 100 weeks in has 4580 remaining. -/
theorem C7_witness :
    (updateSummary ⟨4680, 5000, 0⟩).remainingText = 0 ∧
    (updateSummary ⟨4680, 100, 0⟩).remainingText = 4680 - 100 :=
  ⟨(C7_remaining_clamped_at_zero ⟨4680, 5000, 0⟩).2.1 (by norm_num),
   (C7_remaining_clamped_at_zero ⟨4680, 100, 0⟩).2.2 (by norm_num)⟩

/-- C8: `calculateWeeks` is a pure function of its two inputs: two
invocations with equal `(dob, now)` pairs return equal results, and the
embedding has no other state the result could depend on (the ambient
`new Date()` of the source is exactly the `now` argument). -/
theorem C8_calculateWeeks_pure (d₁ n₁ d₂ n₂ : ℤ) (hd : d₁ = d₂) (hn : n₁ = n₂) :
    calculateWeeks d₁ n₁ = calculateWeeks d₂ n₂ := by
  rw [hd, hn]

/-- C8 witness: the determinism theorem applied at a concrete input. -/
theorem C8_witness :
    calculateWeeks 0 604800000 = calculateWeeks 0 604800000 :=
  C8_calculateWeeks_pure 0 604800000 0 604800000 rfl rfl

/-- C9: `layout` emits at most 90 rows, the total cell count is
`min (max 0 totalWeeks) 4680`, and in particular any `totalWeeks > 4680`
yields exactly 4680 cells. -/
theorem C9_at_most_90_rows (tW wL : ℤ) :
    (layout tW wL).length ≤ 90 ∧
    numCells (layout tW wL) = min (safeTotalN tW) 4680 ∧
    (4680 < tW → numCells (layout tW wL) = 4680) := by
  refine ⟨?_, ?_, ?_⟩
  · simp only [layout]
    exact buildRows_length_le _ _ _ _ _
  · rw [numCells_layout, Nat.min_comm]
  · intro h
    rw [numCells_layout]
    simp only [safeTotalN]
    omega

/-- C9 witness: at `totalWeeks = 4681` the hypothesis `4680 < totalWeeks`
holds and exactly 4680 cells are emitted in at most 90 rows. -/
theorem C9_witness :
    (layout 4681 0).length ≤ 90 ∧ numCells (layout 4681 0) = 4680 := by
  have h := C9_at_most_90_rows 4681 0
  exact ⟨h.1, h.2.2 (by norm_num)⟩

/-- C10: for every `totalWeeks ≤ 0` the grid is exactly one row with zero
cells (the outer loop appends the empty row before testing the break), not
an empty list of rows. -/
theorem C10_nonpositive_total_one_empty_row (tW wL : ℤ) (h : tW ≤ 0) :
    layout tW wL = [Row.mk false []] := by
  have hst : safeTotalN tW = 0 := by
    simp only [safeTotalN]
    omega
  simp only [layout]
  rw [hst]
  rfl

/-- C10 witness: `layout (-5) 7` is one empty row. -/
theorem C10_witness : layout (-5) 7 = [Row.mk false []] :=
  C10_nonpositive_total_one_empty_row (-5) 7 (by norm_num)

end LifeInWeeks
